import Mathlib

/-!
Verification of the process-orchestration and tunnel-supervision core of
`create-minecraft-server.py`.

The Python source is shallowly embedded: each relevant function becomes a
Lean definition over explicit data (output streams become `List String`,
spawned side effects become event lists, the interactive environment becomes
an explicit record).  Machine integers are `Nat`; Python's `int(x * 0.8)` on
the gigabyte count is embedded as `x * 8 / 10` (floor), which agrees with
CPython's float evaluation for every realistic memory size (< 2^40 GB).
-/

/-! ## Python string primitives (ASCII semantics, as used by the script) -/

/-- Python `c.isspace()` for the ASCII whitespace characters relevant to
`str.strip()` / `str.split()`. -/
def pyIsSpace (c : Char) : Bool :=
  c = ' ' || c = '\t' || c = '\n' || c = '\r' || c = '\x0b' || c = '\x0c'

/-- Python `s.strip()`: drop whitespace from both ends. -/
def pyStrip (s : List Char) : List Char :=
  ((s.dropWhile pyIsSpace).reverse.dropWhile pyIsSpace).reverse

/-- Python `s.split()` (no separator): split on runs of whitespace and
discard empty pieces. -/
def pySplitTokens (s : List Char) : List (List Char) :=
  (s.splitOnP pyIsSpace).filter (· ≠ [])

/-- Python `s.lower()` (the script only ever feeds it ASCII marker text,
where `Char.toLower` agrees with `str.lower`). -/
def pyLower (s : List Char) : List Char := s.map Char.toLower

/-- Python `sub in s`: substring containment. -/
def listContainsSub (pat : List Char) : List Char → Bool
  | [] => pat.isEmpty
  | c :: cs => pat.isPrefixOf (c :: cs) || listContainsSub pat cs

/-- Worker for `listReplace`: when the skip counter is positive the current
character was already consumed by a replaced occurrence and is dropped;
at zero, a fresh match of `old` emits `new` and schedules the rest of the
occurrence for skipping. -/
def listReplaceGo (old new : List Char) : List Char → ℕ → List Char
  | [], _ => []
  | _ :: cs, k + 1 => listReplaceGo old new cs k
  | c :: cs, 0 =>
    if old.isPrefixOf (c :: cs) && !old.isEmpty then
      new ++ listReplaceGo old new cs (old.length - 1)
    else
      c :: listReplaceGo old new cs 0

/-- Python `s.replace(old, new)` for a non-empty `old`: replace every
non-overlapping occurrence, scanning left to right.  (The script only calls
it with the non-empty pattern `"tcp://"`.) -/
def listReplace (old new s : List Char) : List Char :=
  listReplaceGo old new s 0

/-! ## Memory ceiling (run_server, lines 342-343)

`total_memory = psutil.virtual_memory().total // (1024 ** 3)` and
`allocated_memory = int(total_memory * 0.8)`. -/

/-- `psutil.virtual_memory().total // (1024 ** 3)`: total physical memory in
whole gigabytes (floored). -/
def total_memory (totalBytes : ℕ) : ℕ := totalBytes / 1024 ^ 3

/-- `int(total_memory * 0.8)`: 80% of the already-floored gigabyte count,
floored again. -/
def allocated_memory (totalBytes : ℕ) : ℕ := total_memory totalBytes * 8 / 10

/-- What the spec sentence literally describes (for comparison): 80% of the
total physical memory, rounded down to whole gigabytes in one step. -/
def spec_memory_ceiling (totalBytes : ℕ) : ℕ := totalBytes * 8 / (10 * 1024 ^ 3)


/-! ## NgrokTunnel (lines 38-76)

`__init__` stores `auth_token or os.getenv("NGROK_AUTH_TOKEN")`; the
environment is `Option String` (`none` = variable unset).  `start_tunnel`
warns and returns `None` when the stored token is falsy, otherwise
configures the token and spawns the tunnel process. -/

/-- Python `a or b` where `a : str` and `b : str | None`: a non-empty string
is truthy and short-circuits; an empty string yields the second operand. -/
def pyOrStr (a : String) (b : Option String) : Option String :=
  if a = "" then b else some a

/-- The hardcoded default of the `auth_token` constructor parameter. -/
def defaultNgrokToken : String := "2ntG1Do0RPAj8ozh2Bmdt5oc3tw_3L4tzn1UZfXFnFr8Kau2n"

structure NgrokTunnel where
  local_port : ℕ
  auth_token : Option String
deriving DecidableEq

/-- `NgrokTunnel.__init__(local_port, auth_token)` with the environment made
explicit.  The script's own call site passes the declared default token. -/
def NgrokTunnel.init (local_port : ℕ) (auth_token : String)
    (ngrokEnvVar : Option String) : NgrokTunnel :=
  ⟨local_port, pyOrStr auth_token ngrokEnvVar⟩

inductive NgrokStartResult where
  /-- `if not self.auth_token`: log a warning, return `None`. -/
  | noToken
  /-- configure the token, spawn `ngrok tcp <port>`, return the handle. -/
  | started (configuredToken : String)
deriving DecidableEq

/-- `NgrokTunnel.start_tunnel` (lines 43-76): the credential check and the
resulting handle; the address-polling thread is modelled separately by
`get_public_url`. -/
def NgrokTunnel.start_tunnel (t : NgrokTunnel) : NgrokStartResult :=
  match t.auth_token with
  | none => .noToken
  | some s => if s = "" then .noToken else .started s

/-- One entry of the `tunnels` array in the Ngrok status-endpoint JSON. -/
structure NgrokApiTunnel where
  public_url : String
deriving DecidableEq

/-- One iteration body of `get_public_url` (lines 63-71): a response is
`none` when the request, the JSON parse, or the `['tunnels'][0]` lookup
raises (all failures are caught and retried after a sleep); otherwise the
first entry's `public_url` with every `"tcp://"` occurrence removed. -/
def extract_public_url : Option (List NgrokApiTunnel) → Option String
  | none => none
  | some [] => none
  | some (t :: _) => some (listReplace "tcp://".data [] t.public_url.data).asString

/-- The polling loop of `get_public_url` over an explicit stream of
successive poll responses: returns the published address together with how
many polls were made before the loop `break`s; `none` if the observed
stream ends before a usable response. -/
def get_public_url : List (Option (List NgrokApiTunnel)) → Option (String × ℕ)
  | [] => none
  | r :: rs =>
    match extract_public_url r with
    | some url => some (url, 1)
    | none =>
      match get_public_url rs with
      | some (url, n) => some (url, n + 1)
      | none => none

/-! ## PlayitGGTunnel.start_tunnel.read_output (lines 88-94) -/

inductive PlayitAction where
  /-- `log_message("✅ Playit.gg agent connected successfully!")` -/
  | logAgentConnected
  /-- `log_message(f"✨ Server accessible at: {address}")` with the
  extracted address. -/
  | publish (address : String)
  /-- `line.strip().split()[-1]` on an empty token list raises IndexError. -/
  | raiseIndexError
deriving DecidableEq

/-- The per-line body of `read_output`: `"agent connected" in line.lower()`
logs a notice; otherwise (`elif`) `"tunnel ready" in line.lower()` publishes
`line.strip().split()[-1]`; otherwise the line is ignored. -/
def playit_handle_line (line : String) : Option PlayitAction :=
  if listContainsSub "agent connected".data (pyLower line.data) then
    some .logAgentConnected
  else if listContainsSub "tunnel ready".data (pyLower line.data) then
    match (pySplitTokens (pyStrip line.data)).getLast? with
    | some tok => some (.publish tok.asString)
    | none => some .raiseIndexError
  else none

/-! ## monitor_server (lines 378-382) -/

inductive MonitorEvent where
  /-- `print(line.strip())` -/
  | echo (line : String)
  /-- `log_message(f"✨ Server '{server_name}' is ready!")` -/
  | readyLog
deriving DecidableEq

/-- The per-line body of `monitor_server`: echo the stripped line, and log
the ready message whenever the raw line contains `"Done ("`. -/
def monitor_line (line : String) : List MonitorEvent :=
  MonitorEvent.echo (pyStrip line.data).asString ::
    (if listContainsSub "Done (".data line.data then [MonitorEvent.readyLog] else [])

/-- `monitor_server` over an explicit finite output stream. -/
def monitor_server (lines : List String) : List MonitorEvent :=
  (lines.map monitor_line).flatten

/-- Number of readiness notifications the monitor emits on a stream. -/
def readyCount (lines : List String) : ℕ :=
  (monitor_server lines).count MonitorEvent.readyLog


/-! ## Tunnel registry and run_server orchestration (lines 112-144, 321-395)

`run_server` is embedded as a function from an explicit environment (which
of the two provider executables `which` finds, the interactive answer, the
Ngrok constructor argument and environment variable, how the final
`server_process.wait()` completes) to the ordered list of observable
actions it performs, plus whether an exception propagates out of it. -/

inductive TunnelChoice where
  | ngrok
  | playit
deriving DecidableEq

/-- The display name each registry entry is listed under. -/
def TunnelChoice.displayName : TunnelChoice → String
  | .ngrok => "Ngrok"
  | .playit => "Playit.gg"

/-- `get_available_tunnel_services` (lines 112-122): probe for `ngrok`,
then for `playit`, in that order. -/
def get_available_tunnel_services (ngrokInstalled playitInstalled : Bool) :
    List TunnelChoice :=
  (if ngrokInstalled then [TunnelChoice.ngrok] else []) ++
    (if playitInstalled then [TunnelChoice.playit] else [])

inductive RunEvent where
  /-- `log_message("⚠️  Server directory ... not found!")`, then return. -/
  | warnDirNotFound
  /-- `release_port()` ran (its own logging is internal to it). -/
  | portReleased
  /-- `log_message("⚠️  Error reading server configuration ...")`, return. -/
  | warnConfigError
  /-- `log_message("⚠️  No tunnel services found. Please install ...")` -/
  | warnNoTunnelServices
  /-- `log_message("📦 Ngrok (https://ngrok.com/download)")` -/
  | infoInstallNgrok
  /-- `log_message("📦 Playit.gg (https://playit.gg)")` -/
  | infoInstallPlayit
  /-- Ngrok's `start_tunnel` warned about a missing token, returned `None`. -/
  | warnNoNgrokToken
  /-- a tunnel process handle was created and returned to `run_server`. -/
  | tunnelStarted
  /-- `subprocess.Popen(java_command, ...)`: the game server was spawned. -/
  | serverStarted
  /-- `log_message("\n🛑 Stopping server...")` in the interrupt handler. -/
  | stopLog
  /-- `tunnel_process.terminate()` in the `finally` block. -/
  | tunnelTerminate
  /-- `log_message("🔌 Tunnel service stopped")` -/
  | tunnelStoppedLog
deriving DecidableEq

/-- `select_tunnel_service` (lines 124-144): with an empty registry, log
the three advisory lines and return `None`; otherwise return the service
whose display name matches the interactive answer (or `None` when the
answer matches nothing). -/
def select_tunnel_service (ngrokInstalled playitInstalled : Bool)
    (answer : String) : List RunEvent × Option TunnelChoice :=
  let available := get_available_tunnel_services ngrokInstalled playitInstalled
  if available.isEmpty then
    ([RunEvent.warnNoTunnelServices, RunEvent.infoInstallNgrok,
      RunEvent.infoInstallPlayit], none)
  else
    ([], available.find? (fun c => c.displayName = answer))

/-- How `server_process.wait()` completes. -/
inductive WaitOutcome where
  /-- `wait()` returns with the process's exit status. -/
  | exited (status : Int)
  /-- a `KeyboardInterrupt` is raised during the wait and caught. -/
  | keyboardInterrupt
  /-- any other exception escapes the wait (only the `finally` runs). -/
  | otherError
deriving DecidableEq

/-- The environment `run_server` executes in. -/
structure RunEnv where
  /-- `os.path.exists(server_dir)` -/
  dirExists : Bool
  /-- reading and parsing `server_config.json` succeeds -/
  configReadable : Bool
  /-- `which ngrok` succeeds -/
  ngrokInstalled : Bool
  /-- `which playit` succeeds -/
  playitInstalled : Bool
  /-- the interactive tunnel-service answer -/
  answer : String
  /-- the `auth_token` argument the Ngrok constructor receives (the
  script's call site passes `defaultNgrokToken`, its declared default) -/
  ngrokTokenArg : String
  /-- `os.getenv("NGROK_AUTH_TOKEN")`, `none` when unset -/
  ngrokEnvVar : Option String
  /-- `psutil.virtual_memory().total` -/
  totalMemoryBytes : ℕ
  /-- how the blocking wait on the server process ends -/
  waitOutcome : WaitOutcome

/-- `tunnel_process = tunnel_service.start_tunnel() if tunnel_service else
None` (line 339): the events this step logs and whether a live tunnel
handle is held afterwards. -/
def tunnel_start_step (env : RunEnv) : Option TunnelChoice →
    List RunEvent × Bool
  | none => ([], false)
  | some TunnelChoice.ngrok =>
    match (NgrokTunnel.init 25565 env.ngrokTokenArg env.ngrokEnvVar).start_tunnel with
    | NgrokStartResult.noToken => ([RunEvent.warnNoNgrokToken], false)
    | NgrokStartResult.started _ => ([RunEvent.tunnelStarted], true)
  | some TunnelChoice.playit => ([RunEvent.tunnelStarted], true)

/-- The `try/except KeyboardInterrupt` around `wait()` (lines 388-391):
events logged, and whether an exception keeps propagating. -/
def wait_step : WaitOutcome → List RunEvent × Bool
  | WaitOutcome.exited _ => ([], false)
  | WaitOutcome.keyboardInterrupt => ([RunEvent.stopLog], false)
  | WaitOutcome.otherError => ([], true)

/-- `run_server` (lines 321-395): the ordered observable actions, and
whether an exception propagates to the caller. -/
def run_server (env : RunEnv) : List RunEvent × Bool :=
  if !env.dirExists then ([RunEvent.warnDirNotFound], false)
  else if !env.configReadable then
    ([RunEvent.portReleased, RunEvent.warnConfigError], false)
  else
    let sel := select_tunnel_service env.ngrokInstalled env.playitInstalled env.answer
    let ts := tunnel_start_step env sel.2
    let w := wait_step env.waitOutcome
    let finallyEvents :=
      if ts.2 then [RunEvent.tunnelTerminate, RunEvent.tunnelStoppedLog] else []
    ([RunEvent.portReleased] ++ sel.1 ++ ts.1 ++ [RunEvent.serverStarted] ++
      w.1 ++ finallyEvents, w.2)


/-! ## Theorems -/

/-- C2 counterexample: on a stream with two lines containing `"Done ("`,
the monitor emits the readiness notification twice, not exactly once — the
loop body has no set-once flag, so the signal re-fires on every matching
line. -/
theorem C2_ready_signal_counterexample :
    listContainsSub "Done (".data ("Done (5s)!").data = true ∧
    readyCount ["Done (5s)!", "Done (6s)!"] = 2 ∧
    readyCount ["Done (5s)!", "Done (6s)!"] ≠ 1 := by decide

/-- C2 (amended): the server-output monitor emits the readiness
notification once per line containing `"Done ("` — so exactly once
precisely when exactly one line of the stream matches. -/
theorem C2_ready_once_per_matching_line (lines : List String) :
    readyCount lines =
      (lines.filter (fun l => listContainsSub "Done (".data l.data)).length := by
  induction lines with
  | nil => rfl
  | cons l ls ih =>
    simp only [readyCount, monitor_server, List.map_cons, List.flatten_cons,
      List.count_append, List.filter_cons] at ih ⊢
    by_cases hc : listContainsSub "Done (".data l.data
    · simp [monitor_line, hc, List.count_cons, ih, Nat.add_comm]
    · simp [monitor_line, hc, List.count_cons, ih]

/-- C2 witness: a stream with a single matching line yields exactly one
readiness notification. -/
theorem C2_witness : readyCount ["Done (5s)!"] = 1 :=
  (C2_ready_once_per_matching_line ["Done (5s)!"]).trans (by decide)

/-- C3 counterexample: for a reported total of 17716740096 bytes (16.5 GB),
the code computes 12 (it floors the byte count to 16 whole GB before taking
80%), while 80% of the total rounded down to whole gigabytes is 13. -/
theorem C3_memory_claim_counterexample :
    allocated_memory 17716740096 = 12 ∧
    spec_memory_ceiling 17716740096 = 13 ∧
    allocated_memory 17716740096 ≠ spec_memory_ceiling 17716740096 := by decide

/-- C3 (amended): for a reported total of 16 GB the `-Xmx` gigabyte value
is 12 and for 10 GB it is 8; in general the total is first rounded down to
whole gigabytes and the ceiling is 80% of that count, floored — so for any
whole-gigabyte total `g` the value is `g * 8 / 10`. -/
theorem C3_memory_ceiling :
    allocated_memory (16 * 1024 ^ 3) = 12 ∧
    allocated_memory (10 * 1024 ^ 3) = 8 ∧
    ∀ g : ℕ, allocated_memory (g * 1024 ^ 3) = g * 8 / 10 := by
  refine ⟨by decide, by decide, fun g => ?_⟩
  unfold allocated_memory total_memory
  rw [Nat.mul_div_cancel _ (by norm_num)]

/-- C3 witness: a machine reporting exactly 20 whole gigabytes gets a
16-gigabyte heap ceiling. -/
theorem C3_memory_witness : allocated_memory (20 * 1024 ^ 3) = 16 :=
  (C3_memory_ceiling.2.2 20).trans (by decide)

/-- C4: on a poll stream whose first status response is
`{"tunnels":[{"public_url":"tcp://1.2.3.4:5555"}]}`, the polling task
publishes `"1.2.3.4:5555"` (scheme prefix stripped) and stops after that
single poll, whatever responses would have followed. -/
theorem C4_ngrok_public_url (rest : List (Option (List NgrokApiTunnel))) :
    get_public_url (some [⟨"tcp://1.2.3.4:5555"⟩] :: rest) =
      some ("1.2.3.4:5555", 1) := rfl

/-- C4 witness: the theorem evaluated on the empty continuation stream. -/
theorem C4_witness :
    get_public_url [some [⟨"tcp://1.2.3.4:5555"⟩]] = some ("1.2.3.4:5555", 1) :=
  C4_ngrok_public_url []

/-- C5 counterexample: the line
`"agent connected, tunnel ready 1.2.3.4:5555"` contains `"tunnel ready"`,
yet the reader only logs the agent-connected notice and publishes no
address, because the tunnel-ready branch is an `elif`. -/
theorem C5_tunnel_ready_counterexample :
    listContainsSub "tunnel ready".data
      ("agent connected, tunnel ready 1.2.3.4:5555").data = true ∧
    playit_handle_line "agent connected, tunnel ready 1.2.3.4:5555" =
      some PlayitAction.logAgentConnected ∧
    playit_handle_line "agent connected, tunnel ready 1.2.3.4:5555" ≠
      some (PlayitAction.publish "1.2.3.4:5555") := by decide

/-- C5 (amended): for every output line that contains `"tunnel ready"`
case-insensitively and does not contain `"agent connected"`
case-insensitively, the reader publishes the last whitespace-delimited
token of the stripped line as the public address. -/
theorem C5_tunnel_ready_publishes (line : String) (tok : List Char)
    (h1 : listContainsSub "tunnel ready".data (pyLower line.data) = true)
    (h2 : listContainsSub "agent connected".data (pyLower line.data) = false)
    (h3 : (pySplitTokens (pyStrip line.data)).getLast? = some tok) :
    playit_handle_line line = some (PlayitAction.publish tok.asString) := by
  unfold playit_handle_line
  simp [h1, h2, h3]

/-- C5 witness: the line `"tunnel ready 1.2.3.4:5555"` publishes
`"1.2.3.4:5555"`. -/
theorem C5_witness :
    playit_handle_line "tunnel ready 1.2.3.4:5555" =
      some (PlayitAction.publish "1.2.3.4:5555") :=
  C5_tunnel_ready_publishes "tunnel ready 1.2.3.4:5555" ("1.2.3.4:5555".data)
    (by decide) (by decide) (by decide)

/-- C9: on any line whose lowercase form contains `"agent connected"` —
in particular one that also contains `"tunnel ready"` — the reader only
logs the agent-connected notice and publishes no address. -/
theorem C9_agent_connected_shadows_publish (line : String)
    (h1 : listContainsSub "agent connected".data (pyLower line.data) = true)
    (_h2 : listContainsSub "tunnel ready".data (pyLower line.data) = true) :
    playit_handle_line line = some PlayitAction.logAgentConnected ∧
    ∀ a : String, playit_handle_line line ≠ some (PlayitAction.publish a) := by
  unfold playit_handle_line
  simp [h1]

/-- C9 witness: the theorem evaluated on
`"agent connected tunnel ready 1.2.3.4:5555"`. -/
theorem C9_witness :
    playit_handle_line "agent connected tunnel ready 1.2.3.4:5555" =
      some PlayitAction.logAgentConnected ∧
    ∀ a : String,
      playit_handle_line "agent connected tunnel ready 1.2.3.4:5555" ≠
        some (PlayitAction.publish a) :=
  C9_agent_connected_shadows_publish "agent connected tunnel ready 1.2.3.4:5555"
    (by decide) (by decide)

/-- C8 counterexample: with an explicitly empty constructor token and the
environment variable set to the empty string (set, not unset), the
missing-credential branch is still reached. -/
theorem C8_env_empty_counterexample :
    (NgrokTunnel.init 25565 "" (some "")).start_tunnel =
      NgrokStartResult.noToken ∧
    (some "" : Option String) ≠ none := by decide

/-- C8 (amended): the default token is a non-empty hardcoded string, so
under the default constructor argument the missing-credential branch is
unreachable whatever the environment holds; the branch is reached exactly
when the caller passes an empty token and `NGROK_AUTH_TOKEN` is unset or
set to the empty string. -/
theorem C8_default_token_branch_unreachable :
    defaultNgrokToken ≠ "" ∧
    (∀ (port : ℕ) (envVar : Option String),
      (NgrokTunnel.init port defaultNgrokToken envVar).start_tunnel ≠
        NgrokStartResult.noToken) ∧
    (∀ (port : ℕ) (tok : String) (envVar : Option String),
      (NgrokTunnel.init port tok envVar).start_tunnel =
          NgrokStartResult.noToken ↔
        tok = "" ∧ (envVar = none ∨ envVar = some "")) := by
  refine ⟨by decide, fun port envVar => ?_, fun port tok envVar => ?_⟩
  · simp [NgrokTunnel.init, NgrokTunnel.start_tunnel, pyOrStr, defaultNgrokToken]
  · unfold NgrokTunnel.init NgrokTunnel.start_tunnel pyOrStr
    by_cases htok : tok = ""
    · subst htok
      cases envVar with
      | none => simp
      | some s =>
        by_cases hs : s = "" <;> simp [hs]
    · simp [htok]

/-- C8 witness: an empty constructor token with the variable unset reaches
the branch. -/
theorem C8_witness :
    (NgrokTunnel.init 25565 "" none).start_tunnel = NgrokStartResult.noToken :=
  (C8_default_token_branch_unreachable.2.2 25565 "" none).mpr ⟨rfl, Or.inl rfl⟩

/-! ### Helper lemmas about the run_server pipeline -/

theorem select_events_cases (a b : Bool) (ans : String) :
    (select_tunnel_service a b ans).1 = [] ∨
    (select_tunnel_service a b ans).1 =
      [RunEvent.warnNoTunnelServices, RunEvent.infoInstallNgrok,
       RunEvent.infoInstallPlayit] := by
  unfold select_tunnel_service
  cases a <;> cases b <;> simp [get_available_tunnel_services]

theorem tunnelTerminate_not_mem_select (a b : Bool) (ans : String) :
    RunEvent.tunnelTerminate ∉ (select_tunnel_service a b ans).1 := by
  rcases select_events_cases a b ans with h | h <;> simp [h]

theorem tunnelStarted_not_mem_select (a b : Bool) (ans : String) :
    RunEvent.tunnelStarted ∉ (select_tunnel_service a b ans).1 := by
  rcases select_events_cases a b ans with h | h <;> simp [h]

theorem tunnel_start_step_events (env : RunEnv) (o : Option TunnelChoice) :
    (tunnel_start_step env o).1 =
      (if (tunnel_start_step env o).2 then [RunEvent.tunnelStarted]
       else if o = some TunnelChoice.ngrok then [RunEvent.warnNoNgrokToken]
       else []) ∨
    (tunnel_start_step env o).1 = [] := by
  cases o with
  | none => simp [tunnel_start_step]
  | some c =>
    cases c with
    | ngrok =>
      cases h : (NgrokTunnel.init 25565 env.ngrokTokenArg env.ngrokEnvVar).start_tunnel with
      | noToken => simp [tunnel_start_step, h]
      | started s => simp [tunnel_start_step, h]
    | playit => simp [tunnel_start_step]

theorem tunnelTerminate_not_mem_start_step (env : RunEnv)
    (o : Option TunnelChoice) :
    RunEvent.tunnelTerminate ∉ (tunnel_start_step env o).1 := by
  rcases tunnel_start_step_events env o with h | h <;> rw [h]
  · split
    · simp
    · split <;> simp
  · simp

theorem tunnelStarted_mem_start_step (env : RunEnv) (o : Option TunnelChoice) :
    RunEvent.tunnelStarted ∈ (tunnel_start_step env o).1 ↔
      (tunnel_start_step env o).2 = true := by
  cases o with
  | none => simp [tunnel_start_step]
  | some c =>
    cases c with
    | ngrok =>
      cases h : (NgrokTunnel.init 25565 env.ngrokTokenArg env.ngrokEnvVar).start_tunnel with
      | noToken => simp [tunnel_start_step, h]
      | started s => simp [tunnel_start_step, h]
    | playit => simp [tunnel_start_step]

theorem wait_step_events (w : WaitOutcome) :
    (wait_step w).1 = [] ∨ (wait_step w).1 = [RunEvent.stopLog] := by
  cases w <;> simp [wait_step]

theorem tunnelTerminate_not_mem_wait (w : WaitOutcome) :
    RunEvent.tunnelTerminate ∉ (wait_step w).1 := by
  rcases wait_step_events w with h | h <;> simp [h]

theorem tunnelStarted_not_mem_wait (w : WaitOutcome) :
    RunEvent.tunnelStarted ∉ (wait_step w).1 := by
  rcases wait_step_events w with h | h <;> simp [h]

theorem run_server_events_main (env : RunEnv) (h1 : env.dirExists = true)
    (h2 : env.configReadable = true) :
    (run_server env).1 =
      [RunEvent.portReleased] ++
      (select_tunnel_service env.ngrokInstalled env.playitInstalled env.answer).1 ++
      (tunnel_start_step env
        (select_tunnel_service env.ngrokInstalled env.playitInstalled env.answer).2).1 ++
      [RunEvent.serverStarted] ++ (wait_step env.waitOutcome).1 ++
      (if (tunnel_start_step env
            (select_tunnel_service env.ngrokInstalled env.playitInstalled env.answer).2).2
       then [RunEvent.tunnelTerminate, RunEvent.tunnelStoppedLog] else []) := by
  unfold run_server
  rw [h1, h2]
  simp

/-- C1: whenever `run_server` actually started a tunnel process, its event
trace contains exactly one `tunnel_process.terminate()` — for every wait
outcome (normal exit with any status, `KeyboardInterrupt`, or any other
exception escaping the wait). -/
theorem C1_tunnel_terminated_exactly_once (env : RunEnv)
    (h : RunEvent.tunnelStarted ∈ (run_server env).1) :
    (run_server env).1.count RunEvent.tunnelTerminate = 1 := by
  cases h1 : env.dirExists with
  | false =>
    unfold run_server at h
    rw [h1] at h
    simp at h
  | true =>
    cases h2 : env.configReadable with
    | false =>
      unfold run_server at h
      rw [h1, h2] at h
      simp at h
    | true =>
      rw [run_server_events_main env h1 h2] at h ⊢
      have hts : (tunnel_start_step env
          (select_tunnel_service env.ngrokInstalled env.playitInstalled env.answer).2).2 = true := by
        simp only [List.mem_append] at h
        rcases h with ((((h | h) | h) | h) | h) | h
        · simp at h
        · exact absurd h (tunnelStarted_not_mem_select _ _ _)
        · exact (tunnelStarted_mem_start_step env _).mp h
        · simp at h
        · exact absurd h (tunnelStarted_not_mem_wait _)
        · rw [apply_ite (RunEvent.tunnelStarted ∈ ·)] at h
          split at h <;> simp_all
      rw [hts]
      simp only [List.count_append, if_true]
      have c1 : (select_tunnel_service env.ngrokInstalled env.playitInstalled
          env.answer).1.count RunEvent.tunnelTerminate = 0 :=
        List.count_eq_zero.mpr (tunnelTerminate_not_mem_select _ _ _)
      have c2 : (tunnel_start_step env
          (select_tunnel_service env.ngrokInstalled env.playitInstalled env.answer).2).1.count
            RunEvent.tunnelTerminate = 0 :=
        List.count_eq_zero.mpr (tunnelTerminate_not_mem_start_step _ _)
      have c3 : (wait_step env.waitOutcome).1.count RunEvent.tunnelTerminate = 0 :=
        List.count_eq_zero.mpr (tunnelTerminate_not_mem_wait _)
      rw [c1, c2, c3]
      decide

/-- C1 witness: a run where PlayitGG is selected and the server later exits
with a non-zero status terminates the tunnel exactly once. -/
theorem C1_witness :
    (run_server ⟨true, true, false, true, "Playit.gg", defaultNgrokToken,
      none, 16 * 1024 ^ 3, WaitOutcome.exited 1⟩).1.count
        RunEvent.tunnelTerminate = 1 :=
  C1_tunnel_terminated_exactly_once _ (by decide)

/-- C6: with an empty constructor token and `NGROK_AUTH_TOKEN` unset,
`start_tunnel` takes the warn-and-return-`None` branch, and `run_server`
(having selected Ngrok) logs that warning, starts no tunnel process, and
still launches the game server. -/
theorem C6_missing_token_nonfatal (env : RunEnv)
    (h1 : env.ngrokTokenArg = "") (h2 : env.ngrokEnvVar = none)
    (h3 : env.dirExists = true) (h4 : env.configReadable = true)
    (h5 : env.ngrokInstalled = true) (h6 : env.answer = "Ngrok") :
    (NgrokTunnel.init 25565 env.ngrokTokenArg env.ngrokEnvVar).start_tunnel =
      NgrokStartResult.noToken ∧
    RunEvent.warnNoNgrokToken ∈ (run_server env).1 ∧
    RunEvent.serverStarted ∈ (run_server env).1 ∧
    RunEvent.tunnelStarted ∉ (run_server env).1 ∧
    RunEvent.tunnelTerminate ∉ (run_server env).1 := by
  obtain ⟨de, cr, ni, pi, ans, tok, envv, mem, wo⟩ := env
  simp only at h1 h2 h3 h4 h5 h6
  subst h1 h2 h3 h4 h5 h6
  cases pi <;> cases wo <;>
    simp [run_server, select_tunnel_service, get_available_tunnel_services,
      TunnelChoice.displayName, tunnel_start_step, NgrokTunnel.init,
      NgrokTunnel.start_tunnel, pyOrStr, wait_step]

/-- C6 witness: the theorem on a concrete environment (Ngrok installed and
chosen, empty token, variable unset, clean exit). -/
theorem C6_witness :
    (NgrokTunnel.init 25565 (RunEnv.ngrokTokenArg ⟨true, true, true, false,
        "Ngrok", "", none, 0, WaitOutcome.exited 0⟩)
      (RunEnv.ngrokEnvVar ⟨true, true, true, false, "Ngrok", "", none, 0,
        WaitOutcome.exited 0⟩)).start_tunnel = NgrokStartResult.noToken ∧
    RunEvent.warnNoNgrokToken ∈ (run_server ⟨true, true, true, false, "Ngrok",
      "", none, 0, WaitOutcome.exited 0⟩).1 ∧
    RunEvent.serverStarted ∈ (run_server ⟨true, true, true, false, "Ngrok",
      "", none, 0, WaitOutcome.exited 0⟩).1 ∧
    RunEvent.tunnelStarted ∉ (run_server ⟨true, true, true, false, "Ngrok",
      "", none, 0, WaitOutcome.exited 0⟩).1 ∧
    RunEvent.tunnelTerminate ∉ (run_server ⟨true, true, true, false, "Ngrok",
      "", none, 0, WaitOutcome.exited 0⟩).1 :=
  C6_missing_token_nonfatal ⟨true, true, true, false, "Ngrok", "", none, 0,
    WaitOutcome.exited 0⟩ rfl rfl rfl rfl rfl rfl

/-- C7: with neither provider executable installed, `select_tunnel_service`
logs the warning plus the two where-to-obtain lines and returns `None`, and
`run_server` still launches the game server with no tunnel process ever
started or terminated. -/
theorem C7_no_providers_server_still_runs (env : RunEnv)
    (h1 : env.ngrokInstalled = false) (h2 : env.playitInstalled = false)
    (h3 : env.dirExists = true) (h4 : env.configReadable = true) :
    select_tunnel_service env.ngrokInstalled env.playitInstalled env.answer =
      ([RunEvent.warnNoTunnelServices, RunEvent.infoInstallNgrok,
        RunEvent.infoInstallPlayit], none) ∧
    RunEvent.warnNoTunnelServices ∈ (run_server env).1 ∧
    RunEvent.serverStarted ∈ (run_server env).1 ∧
    RunEvent.tunnelStarted ∉ (run_server env).1 ∧
    RunEvent.tunnelTerminate ∉ (run_server env).1 := by
  obtain ⟨de, cr, ni, pi, ans, tok, envv, mem, wo⟩ := env
  simp only at h1 h2 h3 h4
  subst h1 h2 h3 h4
  cases wo <;>
    simp [run_server, select_tunnel_service, get_available_tunnel_services,
      tunnel_start_step, wait_step]

/-- C7 witness: the theorem on a concrete environment with no providers
installed and a `KeyboardInterrupt` during the wait. -/
theorem C7_witness :
    select_tunnel_service false false "anything" =
      ([RunEvent.warnNoTunnelServices, RunEvent.infoInstallNgrok,
        RunEvent.infoInstallPlayit], none) ∧
    RunEvent.warnNoTunnelServices ∈ (run_server ⟨true, true, false, false,
      "anything", defaultNgrokToken, none, 0, WaitOutcome.keyboardInterrupt⟩).1 ∧
    RunEvent.serverStarted ∈ (run_server ⟨true, true, false, false,
      "anything", defaultNgrokToken, none, 0, WaitOutcome.keyboardInterrupt⟩).1 ∧
    RunEvent.tunnelStarted ∉ (run_server ⟨true, true, false, false,
      "anything", defaultNgrokToken, none, 0, WaitOutcome.keyboardInterrupt⟩).1 ∧
    RunEvent.tunnelTerminate ∉ (run_server ⟨true, true, false, false,
      "anything", defaultNgrokToken, none, 0, WaitOutcome.keyboardInterrupt⟩).1 :=
  C7_no_providers_server_still_runs ⟨true, true, false, false, "anything",
    defaultNgrokToken, none, 0, WaitOutcome.keyboardInterrupt⟩ rfl rfl rfl rfl

/-- C10: if the server directory does not exist or reading the
configuration file raises, `run_server` returns before a tunnel process or
a game-server process is ever spawned. -/
theorem C10_early_return_spawns_nothing (env : RunEnv)
    (h : env.dirExists = false ∨ env.configReadable = false) :
    RunEvent.tunnelStarted ∉ (run_server env).1 ∧
    RunEvent.serverStarted ∉ (run_server env).1 ∧
    RunEvent.tunnelTerminate ∉ (run_server env).1 := by
  obtain ⟨de, cr, ni, pi, ans, tok, envv, mem, wo⟩ := env
  rcases h with h | h <;> simp only at h <;> subst h
  · simp [run_server]
  · cases de <;> simp [run_server]

/-- C10 witness: the theorem on a concrete environment whose configuration
read fails. -/
theorem C10_witness :
    RunEvent.tunnelStarted ∉ (run_server ⟨true, false, true, true, "Ngrok",
      defaultNgrokToken, none, 0, WaitOutcome.exited 0⟩).1 ∧
    RunEvent.serverStarted ∉ (run_server ⟨true, false, true, true, "Ngrok",
      defaultNgrokToken, none, 0, WaitOutcome.exited 0⟩).1 ∧
    RunEvent.tunnelTerminate ∉ (run_server ⟨true, false, true, true, "Ngrok",
      defaultNgrokToken, none, 0, WaitOutcome.exited 0⟩).1 :=
  C10_early_return_spawns_nothing ⟨true, false, true, true, "Ngrok",
    defaultNgrokToken, none, 0, WaitOutcome.exited 0⟩ (Or.inr rfl)
